import Mathlib

/-
Verification of the awskit testing utilities against the repository's
specification.  The repository ships only `awskit/__init__.py` and the test
suite `tests/test_testing_utilities.py` under `src/`; the modules the tests
exercise (`awskit.sqs.testing`, `awskit.sqs.registry`, `awskit.sqs.decorator`,
`awskit.converter`, `awskit.config`) are not present.  Every definition below
that stands for one of those missing modules is therefore modelled from the
spec (its doc comment says so) and the claims are settled against that model.
-/

namespace Awskit

deriving instance DecidableEq for Except

/-- Modelled from the spec: the error taxonomy of §7 of the spec
(`awskit/exceptions.py` is missing from the sources).  Only the variants the
testing utilities can raise are modelled. -/
inductive SqsError where
  | configuration_error (msg : String)
  | serialization_error (msg : String)
  | deserialization_error (msg : String)
  deriving Repr, DecidableEq

/-- Modelled from the spec: `SendResult. {message_id, sequence_number?}`. -/
structure SendResult where
  message_id : String
  sequence_number : Option String
  deriving Repr, DecidableEq

/-- Modelled from the spec: `SendFailure. {index, code, message, sender_fault}`. -/
structure SendFailure where
  index : Nat
  code : String
  message : String
  sender_fault : Bool
  deriving Repr, DecidableEq

/-- Modelled from the spec: `BatchSendResult. {successful, failed}`. -/
structure BatchSendResult where
  successful : List SendResult
  failed : List SendFailure
  deriving Repr, DecidableEq

/-- Modelled from the spec: `Message<T>` of §3 of the spec
(`awskit/sqs/message.py` is missing from the sources).  Payloads are kept
abstract in the type parameter `α`. -/
structure Message (α : Type) where
  body : α
  message_id : String
  receipt_handle : String
  queue : String
  attributes : List (String × String)
  message_attributes : List (String × String)
  message_group_id : Option String
  sequence_number : Option String
  deriving Repr, DecidableEq

/-- A queue is a FIFO queue exactly when its name ends in `.fifo`
(spec §4.3 AUTO mode and §4.4).  Stated over the character list so that it
evaluates structurally. -/
def isFifoQueue (queue : String) : Bool :=
  queue.data.reverse.take 5 == ['o', 'f', 'i', 'f', '.']

/-- Message ids generated by the mock template: nonempty, distinct per
counter value. -/
def mkMessageId (n : Nat) : String :=
  String.mk ('m' :: 'o' :: 'c' :: 'k' :: '-' :: (Nat.repr n).data)

/-- Sequence numbers generated by the mock template for FIFO sends. -/
def mkSequenceNumber (n : Nat) : String :=
  String.mk ('s' :: 'e' :: 'q' :: '-' :: (Nat.repr n).data)

/-- Modelled from the spec: one entry of `MockSqsTemplate.sent_messages`
(`awskit/sqs/testing.py` is missing from the sources).  The tests read the
keys `queue`, `payload`, `delay_seconds`, `message_attributes`,
`message_group_id` and `is_fifo` of each recorded dict. -/
structure SentMessage (α : Type) where
  queue : String
  payload : α
  delay_seconds : Option Nat
  message_attributes : List (String × String)
  message_group_id : Option String
  message_deduplication_id : Option String
  is_fifo : Bool
  message_id : String
  sequence_number : Option String
  deriving Repr, DecidableEq

/-- Modelled from the spec: the state of a `MockSqsTemplate`
(`awskit/sqs/testing.py` is missing from the sources): the ordered record of
sends plus a counter used to generate fresh message ids. -/
structure MockSqsTemplate (α : Type) where
  sent_messages : List (SentMessage α)
  counter : Nat
  deriving Repr, DecidableEq

/-- A freshly constructed mock template: nothing recorded yet. -/
def MockSqsTemplate.empty {α : Type} : MockSqsTemplate α :=
  { sent_messages := [], counter := 0 }

/-- Modelled from the spec: `send(queue, payload, *, delay_seconds?,
message_attributes?, message_group_id?, message_deduplication_id?) →
SendResult`; if `queue` ends in `.fifo`, `message_group_id` is required,
missing ⇒ fail with `configuration_error` (spec §4.4); otherwise the mock
records the send and returns a fresh `SendResult` (`awskit/sqs/testing.py`
is missing from the sources).  State passing is explicit: a successful send
returns the result together with the updated template. -/
def MockSqsTemplate.send {α : Type} (t : MockSqsTemplate α) (queue : String)
    (payload : α) (delaySeconds : Option Nat)
    (messageAttributes : List (String × String))
    (messageGroupId : Option String) (messageDeduplicationId : Option String) :
    Except SqsError (SendResult × MockSqsTemplate α) :=
  if isFifoQueue queue && messageGroupId.isNone then
    .error (.configuration_error "message_group_id is required for FIFO queues")
  else
    let fifo := isFifoQueue queue
    let mid := mkMessageId t.counter
    let seqNo := if fifo then some (mkSequenceNumber t.counter) else none
    let entry : SentMessage α :=
      { queue := queue, payload := payload, delay_seconds := delaySeconds,
        message_attributes := messageAttributes,
        message_group_id := messageGroupId,
        message_deduplication_id := messageDeduplicationId,
        is_fifo := fifo, message_id := mid, sequence_number := seqNo }
    .ok ({ message_id := mid, sequence_number := seqNo },
         { sent_messages := t.sent_messages ++ [entry],
           counter := t.counter + 1 })

/-- The entry one batch element records: queue, payload, generated ids, no
per-message options (the mock batch takes none). -/
def batchEntry {α : Type} (queue : String) (p : α) (n : Nat) : SentMessage α :=
  { queue := queue, payload := p, delay_seconds := none,
    message_attributes := [], message_group_id := none,
    message_deduplication_id := none,
    is_fifo := isFifoQueue queue, message_id := mkMessageId n,
    sequence_number := if isFifoQueue queue then some (mkSequenceNumber n)
      else none }

/-- Record the entries of one batch, one per payload, in order.  Each entry
succeeds in the mock, so one `SendResult` is produced per payload. -/
def MockSqsTemplate.recordBatch {α : Type} (t : MockSqsTemplate α)
    (queue : String) (payloads : List α) :
    List SendResult × MockSqsTemplate α :=
  match payloads with
  | [] => ([], t)
  | p :: rest =>
    let e := batchEntry queue p t.counter
    let t' : MockSqsTemplate α :=
      { sent_messages := t.sent_messages ++ [e], counter := t.counter + 1 }
    let r := t'.recordBatch queue rest
    ({ message_id := e.message_id, sequence_number := e.sequence_number } :: r.1,
     r.2)

/-- Modelled from the spec: `send_batch(queue, payloads, *) →
BatchSendResult` with size constraints `1 ≤ len ≤ 10` (fail outside); the
mock records every payload and reports all of them successful
(`awskit/sqs/testing.py` is missing from the sources; its tests expect the
messages `Cannot send empty batch` and `exceeds maximum of 10`). -/
def MockSqsTemplate.send_batch {α : Type} (t : MockSqsTemplate α)
    (queue : String) (payloads : List α) :
    Except SqsError (BatchSendResult × MockSqsTemplate α) :=
  if payloads.length = 0 then
    .error (.configuration_error "Cannot send empty batch")
  else if payloads.length > 10 then
    .error (.configuration_error "Batch size exceeds maximum of 10")
  else
    let r := t.recordBatch queue payloads
    .ok ({ successful := r.1, failed := [] }, r.2)

/-- The `Message` a recorded send is replayed as by `receive`. -/
def SentMessage.toMessage {α : Type} (e : SentMessage α) : Message α :=
  { body := e.payload, message_id := e.message_id,
    receipt_handle := String.mk ('r' :: 'h' :: '-' :: e.message_id.data),
    queue := e.queue, attributes := [],
    message_attributes := e.message_attributes,
    message_group_id := e.message_group_id,
    sequence_number := e.sequence_number }

/-- Modelled from the spec: `MockSendTemplate` records sends and replays
them as receives (spec §6 Exposed surface); `receive(queue, max_messages)`
returns the messages previously sent to that queue, in send order, at most
`max_messages` of them (`awskit/sqs/testing.py` is missing from the
sources). -/
def MockSqsTemplate.receive {α : Type} (t : MockSqsTemplate α)
    (queue : String) (maxMessages : Nat) : List (Message α) :=
  ((t.sent_messages.filter (fun e => e.queue == queue)).map
    SentMessage.toMessage).take maxMessages

/-- Modelled from the spec: `clear()` empties the record of sent messages
(`awskit/sqs/testing.py` is missing from the sources). -/
def MockSqsTemplate.clear {α : Type} (t : MockSqsTemplate α) :
    MockSqsTemplate α :=
  { t with sent_messages := [] }

/-- One plain send (no delay, attributes or FIFO fields), keeping the new
template state; a failing send leaves the template unchanged. -/
def sendSimple {α : Type} (t : MockSqsTemplate α) (q : String) (p : α) :
    MockSqsTemplate α :=
  match t.send q p none [] none none with
  | .ok r => r.2
  | .error _ => t

/-- Apply a sequence of plain sends `(queue, payload)` to a template, in
order. -/
def applySends {α : Type} (t : MockSqsTemplate α) (ops : List (String × α)) :
    MockSqsTemplate α :=
  ops.foldl (fun acc op => sendSimple acc op.1 op.2) t

/-- One call the real send template issues to the queue-service client. -/
structure ClientSendCall (α : Type) where
  queue : String
  payload : α
  message_group_id : Option String
  deriving Repr, DecidableEq

/-- Modelled from the spec: the real `SqsTemplate.send` checks the FIFO
requirement before contacting the queue-service client (spec §4.4 and P7;
`awskit/sqs/template.py` is missing from the sources).  The client is an
abstract function from calls to results; the second component of the return
value is the list of client calls the send issued. -/
def templateSend {α : Type} (client : ClientSendCall α → SendResult)
    (queue : String) (payload : α) (messageGroupId : Option String) :
    Except SqsError SendResult × List (ClientSendCall α) :=
  if isFifoQueue queue && messageGroupId.isNone then
    (.error (.configuration_error "message_group_id is required for FIFO queues"),
     [])
  else
    let call : ClientSendCall α :=
      { queue := queue, payload := payload, message_group_id := messageGroupId }
    (.ok (client call), [call])

/-- Payload type descriptors that can appear as a Python parameter type
hint (`dict`, or a user-defined class such as the tests' `Order`). -/
inductive PyType where
  | dict
  | custom (name : String)
  deriving Repr, DecidableEq

/-- One parameter of a Python handler function: its name and its optional
type hint. -/
structure PyParam where
  name : String
  hint : Option PyType
  deriving Repr, DecidableEq

/-- A Python handler function as the registry sees it: a stable handler key
and the declared parameters. -/
structure PyFunction where
  key : String
  params : List PyParam
  deriving Repr, DecidableEq

/-- Modelled from the spec: `get_listener_type_hint` inspects the handler's
single parameter's declared type to derive the payload type; if absent it
returns `None` (spec §4.5; `awskit/sqs/testing.py` is missing from the
sources). -/
def get_listener_type_hint (f : PyFunction) : Option PyType :=
  match f.params with
  | [] => none
  | p :: _ => p.hint

/-- Modelled from the spec: the part of `ListenerConfig` the tests observe
(`awskit/config.py` is missing from the sources). -/
structure ListenerConfig where
  queue : String
  deriving Repr, DecidableEq

/-- Modelled from the spec: one `ListenerRegistry` entry
`(handler_key, ListenerConfig, declared_payload_type)` (spec §3). -/
structure RegistryEntry where
  handler_key : String
  config : ListenerConfig
  payload_type : Option PyType
  deriving Repr, DecidableEq

/-- Modelled from the spec: the state of the process-wide `ListenerRegistry`
(`awskit/sqs/registry.py` is missing from the sources): the ordered list of
entries and the thread-local registration-disabled flag. -/
structure ListenerRegistry where
  listeners : List RegistryEntry
  registration_disabled : Bool
  deriving Repr, DecidableEq

/-- Modelled from the spec: `get_listeners()` returns the ordered list of
registered entries. -/
def ListenerRegistry.get_listeners (s : ListenerRegistry) : List RegistryEntry :=
  s.listeners

/-- Modelled from the spec: `clear()` empties the registry. -/
def ListenerRegistry.clear (s : ListenerRegistry) : ListenerRegistry :=
  { s with listeners := [] }

/-- The registry entry one decorator application produces: the handler key,
the configured queue, and the payload type derived from the handler's
parameter type hint. -/
def listenerEntry (queue : String) (f : PyFunction) : RegistryEntry :=
  { handler_key := f.key, config := { queue := queue },
    payload_type := get_listener_type_hint f }

/-- Modelled from the spec: the `sqs_listener(queue)` decorator registers
the handler with its config and derived payload type, unless registration
is disabled, in which case it registers nothing (spec §4.5;
`awskit/sqs/decorator.py` is missing from the sources). -/
def sqs_listener (queue : String) (f : PyFunction) (s : ListenerRegistry) :
    ListenerRegistry :=
  if s.registration_disabled then s
  else { s with listeners := s.listeners ++ [listenerEntry queue f] }

/-- Apply a sequence of decorator uses, in order: each element is the
configured queue together with the decorated handler. -/
def applyListeners (s : ListenerRegistry) (ds : List (String × PyFunction)) :
    ListenerRegistry :=
  ds.foldl (fun acc d => sqs_listener d.1 d.2 acc) s

/-- Modelled from the spec: the `disable_listener_registration()` scoped
guard sets the registration-disabled flag, runs its body, and restores the
flag on exit (spec §4.5; `awskit/sqs/testing.py` is missing from the
sources).  The body is any state transformation performed inside the
`with` block. -/
def disable_listener_registration (s : ListenerRegistry)
    (body : ListenerRegistry → ListenerRegistry) : ListenerRegistry :=
  let inside := body { s with registration_disabled := true }
  { inside with registration_disabled := s.registration_disabled }

/-- A handler function shaped like the ones in the repository's tests: a
single `message` parameter annotated with `dict`. -/
def pyHandler (key : String) : PyFunction :=
  { key := key, params := [{ name := "message", hint := some PyType.dict }] }

/-- The argument `trigger_listener` accepts: a plain payload or a full
`Message`. -/
inductive PayloadOrMessage (α : Type) where
  | payload (p : α)
  | message (m : Message α)

/-- Modelled from the spec: `trigger_listener(handler, payload_or_message)`
calls the handler directly with the given payload (the body, for a full
`Message`) and returns its result (spec §6 Exposed surface;
`awskit/sqs/testing.py` is missing from the sources).  The second component
of the result is the trace of arguments the handler was invoked with. -/
def trigger_listener {α β : Type} (handler : α → β) (x : PayloadOrMessage α) :
    β × List α :=
  match x with
  | .payload p => (handler p, [p])
  | .message m => (handler m.body, [m.body])

/-- Modelled from the spec: `create_test_message(body, ...)` builds a
`Message` with test defaults, each keyword override replacing only its own
default (`awskit/sqs/testing.py` is missing from the sources; the tests pin
the defaults `test-message-id`, `test-receipt-handle` and empty attribute
mappings). -/
def create_test_message {α : Type} (body : α) (messageId : Option String)
    (receiptHandle : Option String)
    (messageAttributes : Option (List (String × String))) : Message α :=
  { body := body,
    message_id := messageId.getD "test-message-id",
    receipt_handle := receiptHandle.getD "test-receipt-handle",
    queue := "test-queue",
    attributes := [],
    message_attributes := messageAttributes.getD [],
    message_group_id := none,
    sequence_number := none }

/-- The polling loop of `wait_for_processing`, with explicit fuel.  The
condition is modelled as a function of the index of the call (the Python
condition is stateful: the tests count its invocations); `k` is the index of
the next call, `elapsed` the discrete time elapsed so far, and each poll
advances time by `interval`.  Returns the result together with the number
of condition calls made. -/
def waitGo (condition : Nat → Bool) (timeout interval : Nat) :
    Nat → Nat → Nat → Bool × Nat
  | _, _, 0 => (false, 0)
  | k, elapsed, fuel + 1 =>
    if elapsed < timeout then
      if condition k then (true, 1)
      else
        let r := waitGo condition timeout interval (k + 1) (elapsed + interval) fuel
        (r.1, r.2 + 1)
    else (false, 0)

/-- Modelled from the spec: `wait_for_processing(predicate, timeout,
poll_interval)` polls the condition, returning `True` as soon as it holds
and `False` once the timeout elapses (spec §6 Exposed surface;
`awskit/sqs/testing.py` is missing from the sources).  Time is discretized:
checks happen at elapsed times `0, interval, 2*interval, ...` while the
elapsed time is below `timeout`.  The fuel `timeout` suffices whenever
`interval ≥ 1`. -/
def wait_for_processing (condition : Nat → Bool) (timeout interval : Nat) :
    Bool :=
  (waitGo condition timeout interval 0 0 timeout).1

/-- Number of condition calls `wait_for_processing` makes. -/
def wait_for_processing_calls (condition : Nat → Bool)
    (timeout interval : Nat) : Nat :=
  (waitGo condition timeout interval 0 0 timeout).2

end Awskit

namespace Awskit

theorem mkMessageId_ne_empty (n : Nat) : mkMessageId n ≠ "" := by
  intro h
  have h2 : ('m' :: 'o' :: 'c' :: 'k' :: '-' :: (Nat.repr n).data) = [] :=
    congrArg String.data h
  cases h2

/-- C1: a send to a queue whose name ends in `.fifo` without a
`message_group_id` fails with `configuration_error` and issues no call to
the queue-service client; a send to any other queue needs no
`message_group_id`. -/
theorem fifo_send_requires_group_id {α : Type}
    (client : ClientSendCall α → SendResult) (t : MockSqsTemplate α)
    (q : String) (p : α) (d : Option Nat) (ma : List (String × String))
    (mdid : Option String) :
    (isFifoQueue q = true →
      templateSend client q p none =
        (.error (.configuration_error
          "message_group_id is required for FIFO queues"), [])
      ∧ t.send q p d ma none mdid =
          .error (.configuration_error
            "message_group_id is required for FIFO queues"))
    ∧ (isFifoQueue q = false →
      (∃ r, templateSend client q p none =
        (.ok r, [{ queue := q, payload := p, message_group_id := none }]))
      ∧ ∃ r t', t.send q p d ma none mdid = .ok (r, t')) := by
  constructor
  · intro h
    constructor
    · simp [templateSend, h]
    · simp [MockSqsTemplate.send, h]
  · intro h
    constructor
    · refine ⟨client { queue := q, payload := p, message_group_id := none }, ?_⟩
      simp [templateSend, h]
    · rcases hs : t.send q p d ma none mdid with err | ok
      · exfalso
        revert hs
        simp [MockSqsTemplate.send, h]
      · obtain ⟨r1, t1⟩ := ok
        exact ⟨r1, t1, rfl⟩

theorem fifo_send_requires_group_id_witness :
    (templateSend (α := Nat) (fun _ => { message_id := "m", sequence_number := none })
        "test-queue.fifo" 1 none =
      (.error (.configuration_error
        "message_group_id is required for FIFO queues"), []))
    ∧ (MockSqsTemplate.send (α := Nat) MockSqsTemplate.empty "test-queue.fifo" 1
        none [] none none =
      .error (.configuration_error
        "message_group_id is required for FIFO queues")) :=
  (fifo_send_requires_group_id (fun _ => { message_id := "m", sequence_number := none })
    MockSqsTemplate.empty "test-queue.fifo" 1 none [] none).1 (by decide)

/-- C5: the payload type is derived from the handler's single parameter's
declared type: an annotated parameter yields exactly that type, an
unannotated one yields `none`. -/
theorem get_listener_type_hint_spec (f : PyFunction) (p : PyParam)
    (h : f.params = [p]) :
    (∀ ty, p.hint = some ty → get_listener_type_hint f = some ty)
    ∧ (p.hint = none → get_listener_type_hint f = none) := by
  have hf : get_listener_type_hint f = p.hint := by
    simp [get_listener_type_hint, h]
  exact ⟨fun ty hty => by rw [hf, hty], fun hn => by rw [hf, hn]⟩

theorem get_listener_type_hint_spec_witness :
    (∀ ty, (some PyType.dict : Option PyType) = some ty →
      get_listener_type_hint { key := "h", params := [{ name := "message", hint := some PyType.dict }] } = some ty)
    ∧ ((some PyType.dict : Option PyType) = none →
      get_listener_type_hint { key := "h", params := [{ name := "message", hint := some PyType.dict }] } = none) :=
  get_listener_type_hint_spec
    { key := "h", params := [{ name := "message", hint := some PyType.dict }] }
    { name := "message", hint := some PyType.dict } (by decide)

/-- C9: `trigger_listener` invokes the handler exactly once, with exactly
the given payload (or the body of the given message), and returns the
handler's result unchanged; the second component is the invocation trace. -/
theorem trigger_listener_spec {α β : Type} (handler : α → β) (p : α)
    (m : Message α) :
    trigger_listener handler (.payload p) = (handler p, [p])
    ∧ trigger_listener handler (.message m) = (handler m.body, [m.body]) :=
  ⟨rfl, rfl⟩

/-- C10: `create_test_message` uses the documented defaults, and each
keyword override replaces only its own field. -/
theorem create_test_message_spec {α : Type} (b : α) (mi rh : Option String)
    (ma : Option (List (String × String))) :
    (create_test_message b mi rh ma).body = b
    ∧ (create_test_message b mi rh ma).message_id = mi.getD "test-message-id"
    ∧ (create_test_message b mi rh ma).receipt_handle =
        rh.getD "test-receipt-handle"
    ∧ (create_test_message b mi rh ma).attributes = []
    ∧ (create_test_message b mi rh ma).message_attributes = ma.getD []
    ∧ (create_test_message b none none none).message_id = "test-message-id"
    ∧ (create_test_message b none none none).receipt_handle =
        "test-receipt-handle" :=
  ⟨rfl, rfl, rfl, rfl, rfl, rfl, rfl⟩

/-- C6: a successful send returns a nonempty message id; a FIFO send with a
group id additionally returns a sequence number, and the recorded entry
carries that group id and is marked FIFO. -/
theorem send_result_fields {α : Type} (t : MockSqsTemplate α) (q : String)
    (p : α) (d : Option Nat) (ma : List (String × String))
    (gid mdid : Option String) (r : SendResult) (t' : MockSqsTemplate α)
    (h : t.send q p d ma gid mdid = .ok (r, t')) :
    r.message_id ≠ ""
    ∧ (isFifoQueue q = true →
      (∃ s, r.sequence_number = some s)
      ∧ ∃ e, t'.sent_messages.getLast? = some e
          ∧ e.message_group_id = gid ∧ e.is_fifo = true) := by
  unfold MockSqsTemplate.send at h
  split at h
  · exact absurd h (by simp)
  · simp only [Except.ok.injEq, Prod.mk.injEq] at h
    obtain ⟨hr, ht⟩ := h
    constructor
    · rw [← hr]
      exact mkMessageId_ne_empty t.counter
    · intro hf
      constructor
      · exact ⟨mkSequenceNumber t.counter, by rw [← hr]; simp [hf]⟩
      · refine ⟨_, by rw [← ht]; exact List.getLast?_concat _, rfl, ?_⟩
        simp [hf]

theorem send_result_fields_witness :
    ({ message_id := mkMessageId 0,
       sequence_number := some (mkSequenceNumber 0) } : SendResult).message_id ≠ ""
    ∧ (isFifoQueue "orders.fifo" = true →
      (∃ s, ({ message_id := mkMessageId 0,
               sequence_number := some (mkSequenceNumber 0) } : SendResult).sequence_number = some s)
      ∧ ∃ e, ({ sent_messages :=
                  [{ queue := "orders.fifo", payload := (1 : Nat),
                     delay_seconds := none, message_attributes := [],
                     message_group_id := some "group-1",
                     message_deduplication_id := none, is_fifo := true,
                     message_id := mkMessageId 0,
                     sequence_number := some (mkSequenceNumber 0) }],
                counter := 1 } : MockSqsTemplate Nat).sent_messages.getLast? = some e
          ∧ e.message_group_id = some "group-1" ∧ e.is_fifo = true) :=
  send_result_fields MockSqsTemplate.empty "orders.fifo" 1 none [] (some "group-1")
    none _ _ (by decide)

theorem recordBatch_lengths {α : Type} (ps : List α) :
    ∀ (t : MockSqsTemplate α) (q : String),
      (t.recordBatch q ps).1.length = ps.length
      ∧ (t.recordBatch q ps).2.sent_messages.length =
          t.sent_messages.length + ps.length := by
  induction ps with
  | nil =>
    intro t q
    simp [MockSqsTemplate.recordBatch]
  | cons p rest ih =>
    intro t q
    simp only [MockSqsTemplate.recordBatch, List.length_cons]
    obtain ⟨h1, h2⟩ :=
      ih ⟨t.sent_messages ++ [batchEntry q p t.counter], t.counter + 1⟩ q
    rw [h1]
    refine ⟨rfl, ?_⟩
    rw [h2]
    simp
    omega

/-- C2: `send_batch` with `1 ≤ n ≤ 10` payloads succeeds, the successful
and failed lists together hold exactly `n` results, and `n` messages are
recorded; with `n = 0` or `n > 10` it fails with `configuration_error`. -/
theorem send_batch_size_bounds {α : Type} (t : MockSqsTemplate α)
    (q : String) (ps : List α) :
    (1 ≤ ps.length → ps.length ≤ 10 →
      ∃ r t', t.send_batch q ps = .ok (r, t')
        ∧ r.successful.length + r.failed.length = ps.length
        ∧ t'.sent_messages.length = t.sent_messages.length + ps.length)
    ∧ ((ps.length = 0 ∨ 10 < ps.length) →
      ∃ msg, t.send_batch q ps = .error (.configuration_error msg)) := by
  constructor
  · intro h1 h2
    have hz : ¬ ps.length = 0 := by omega
    have hg : ¬ ps.length > 10 := by omega
    refine ⟨{ successful := (t.recordBatch q ps).1, failed := [] },
      (t.recordBatch q ps).2, ?_, ?_, ?_⟩
    · simp [MockSqsTemplate.send_batch, hz, hg]
    · simpa using (recordBatch_lengths ps t q).1
    · exact (recordBatch_lengths ps t q).2
  · intro h
    rcases h with h0 | hg
    · exact ⟨"Cannot send empty batch", by simp [MockSqsTemplate.send_batch, h0]⟩
    · refine ⟨"Batch size exceeds maximum of 10", ?_⟩
      have hz : ¬ ps.length = 0 := by omega
      simp [MockSqsTemplate.send_batch, hz, hg]

theorem send_batch_size_bounds_witness :
    (1 ≤ ([(1 : Nat), 2, 3] : List Nat).length ∧
      ([(1 : Nat), 2, 3] : List Nat).length ≤ 10)
    ∧ (∃ r t', MockSqsTemplate.send_batch (α := Nat) MockSqsTemplate.empty
        "test-queue" [1, 2, 3] = .ok (r, t')
        ∧ r.successful.length + r.failed.length = ([(1 : Nat), 2, 3] : List Nat).length
        ∧ t'.sent_messages.length =
            (MockSqsTemplate.empty (α := Nat)).sent_messages.length +
              ([(1 : Nat), 2, 3] : List Nat).length) :=
  ⟨by decide,
    (send_batch_size_bounds MockSqsTemplate.empty "test-queue" [1, 2, 3]).1
      (by decide) (by decide)⟩

theorem applySends_cons {α : Type} (t : MockSqsTemplate α)
    (op : String × α) (ops : List (String × α)) :
    applySends t (op :: ops) = applySends (sendSimple t op.1 op.2) ops := rfl

theorem applySends_proj {α : Type} (ops : List (String × α)) :
    ∀ t : MockSqsTemplate α, (∀ op ∈ ops, isFifoQueue op.1 = false) →
      (applySends t ops).sent_messages.map (fun e => (e.queue, e.payload)) =
        t.sent_messages.map (fun e => (e.queue, e.payload)) ++ ops := by
  induction ops with
  | nil =>
    intro t h
    simp [applySends]
  | cons op rest ih =>
    intro t h
    have hop : isFifoQueue op.1 = false := h op (by simp)
    have hrest : ∀ o ∈ rest, isFifoQueue o.1 = false :=
      fun o ho => h o (by simp [ho])
    rw [applySends_cons, ih _ hrest]
    have hsend : sendSimple t op.1 op.2 =
        { sent_messages := t.sent_messages ++
            [{ queue := op.1, payload := op.2, delay_seconds := none,
               message_attributes := [], message_group_id := none,
               message_deduplication_id := none, is_fifo := false,
               message_id := mkMessageId t.counter, sequence_number := none }],
          counter := t.counter + 1 } := by
      simp [sendSimple, MockSqsTemplate.send, hop]
    rw [hsend]
    simp

/-- C3: the mock template replays sends as receives: `receive(queue, max)`
returns the messages previously sent to exactly that queue, in send order,
at most `max` of them, with each returned body equal to the sent payload. -/
theorem mock_receive_replays_sends {α : Type} (ops : List (String × α))
    (q : String) (m : Nat) (h : ∀ op ∈ ops, isFifoQueue op.1 = false) :
    ((applySends MockSqsTemplate.empty ops).receive q m).map Message.body =
        ((ops.filter (fun op => op.1 == q)).map Prod.snd).take m
    ∧ ((applySends MockSqsTemplate.empty ops).receive q m).length =
        min m (ops.filter (fun op => op.1 == q)).length
    ∧ ∀ msg ∈ (applySends MockSqsTemplate.empty ops).receive q m,
        msg.queue = q := by
  have hp : (applySends MockSqsTemplate.empty ops).sent_messages.map
      (fun e => (e.queue, e.payload)) = ops := by
    simpa [MockSqsTemplate.empty] using
      applySends_proj ops MockSqsTemplate.empty h
  have key : ((applySends MockSqsTemplate.empty ops).sent_messages.filter
      (fun e => e.queue == q)).map (fun e => e.payload) =
      (ops.filter (fun op => op.1 == q)).map Prod.snd := by
    conv_rhs => rw [← hp]
    rw [List.filter_map]
    simp [Function.comp_def]
  refine ⟨?_, ?_, ?_⟩
  · simp only [MockSqsTemplate.receive, List.map_take]
    rw [← key]
    simp [List.map_map, SentMessage.toMessage, Function.comp_def]
  · simp only [MockSqsTemplate.receive]
    rw [List.length_take]
    congr 1
    have := congrArg List.length key
    simpa using this
  · intro msg hmsg
    simp only [MockSqsTemplate.receive] at hmsg
    have hmem := List.mem_of_mem_take hmsg
    obtain ⟨e, he, rfl⟩ := List.mem_map.mp hmem
    have := List.mem_filter.mp he
    simp only [SentMessage.toMessage]
    simpa using this.2

theorem mock_receive_replays_sends_witness :
    (∀ op ∈ ([("test-queue", (1 : Nat)), ("test-queue", 2), ("other-queue", 3)] :
        List (String × Nat)), isFifoQueue op.1 = false)
    ∧ (((applySends (α := Nat) MockSqsTemplate.empty
          [("test-queue", 1), ("test-queue", 2), ("other-queue", 3)]).receive
          "test-queue" 2).map Message.body =
        ((([("test-queue", (1 : Nat)), ("test-queue", 2), ("other-queue", 3)] :
            List (String × Nat)).filter
          (fun op => op.1 == "test-queue")).map Prod.snd).take 2) :=
  ⟨by decide,
    (mock_receive_replays_sends
      [("test-queue", 1), ("test-queue", 2), ("other-queue", 3)]
      "test-queue" 2 (by decide)).1⟩

theorem applyListeners_cons (s : ListenerRegistry) (d : String × PyFunction)
    (ds : List (String × PyFunction)) :
    applyListeners s (d :: ds) = applyListeners (sqs_listener d.1 d.2 s) ds :=
  rfl

theorem applyListeners_disabled (ds : List (String × PyFunction)) :
    ∀ s : ListenerRegistry, s.registration_disabled = true →
      applyListeners s ds = s := by
  induction ds with
  | nil => intro s h; rfl
  | cons d rest ih =>
    intro s h
    rw [applyListeners_cons]
    have hd : sqs_listener d.1 d.2 s = s := by
      simp [sqs_listener, h]
    rw [hd]
    exact ih s h

theorem applyListeners_enabled (ds : List (String × PyFunction)) :
    ∀ s : ListenerRegistry, s.registration_disabled = false →
      applyListeners s ds =
        { listeners := s.listeners ++ ds.map (fun d => listenerEntry d.1 d.2),
          registration_disabled := false } := by
  induction ds with
  | nil =>
    intro s h
    cases s
    simp_all [applyListeners]
  | cons d rest ih =>
    intro s h
    rw [applyListeners_cons]
    have hd : sqs_listener d.1 d.2 s =
        { listeners := s.listeners ++ [listenerEntry d.1 d.2],
          registration_disabled := s.registration_disabled } := by
      simp [sqs_listener, h]
    rw [hd, ih _ (by simp [h])]
    simp

/-- C4: while the `disable_listener_registration` guard is active, decorator
applications register nothing and the existing entries are unchanged; after
the guard exits the flag is restored and decorator applications register
again, so only handlers decorated outside the guard appear. -/
theorem disable_listener_registration_scopes (s : ListenerRegistry)
    (inside outside : List (String × PyFunction))
    (h : s.registration_disabled = false) :
    (disable_listener_registration s
        (fun t => applyListeners t inside)).get_listeners = s.get_listeners
    ∧ (disable_listener_registration s
        (fun t => applyListeners t inside)).registration_disabled = false
    ∧ (applyListeners (disable_listener_registration s
        (fun t => applyListeners t inside)) outside).get_listeners =
          s.get_listeners ++ outside.map (fun d => listenerEntry d.1 d.2) := by
  have hin : applyListeners { s with registration_disabled := true } inside =
      { s with registration_disabled := true } :=
    applyListeners_disabled inside _ rfl
  have hdis : disable_listener_registration s
      (fun t => applyListeners t inside) =
      { listeners := s.listeners, registration_disabled := false } := by
    simp only [disable_listener_registration, hin]
    rw [h]
  refine ⟨?_, ?_, ?_⟩
  · rw [hdis]
    rfl
  · rw [hdis]
  · rw [hdis, applyListeners_enabled outside _ rfl]
    rfl

theorem disable_listener_registration_scopes_witness :
    ((⟨[], false⟩ : ListenerRegistry).registration_disabled = false)
    ∧ ((disable_listener_registration ⟨[], false⟩
        (fun t => applyListeners t
          [("queue-2", pyHandler "listener2")])).get_listeners =
        (⟨[], false⟩ : ListenerRegistry).get_listeners
      ∧ (disable_listener_registration ⟨[], false⟩
          (fun t => applyListeners t
            [("queue-2", pyHandler "listener2")])).registration_disabled = false
      ∧ (applyListeners (disable_listener_registration ⟨[], false⟩
          (fun t => applyListeners t
            [("queue-2", pyHandler "listener2")]))
          [("queue-3", pyHandler "listener3")]).get_listeners =
          (⟨[], false⟩ : ListenerRegistry).get_listeners ++
            ([("queue-3", pyHandler "listener3")].map
              (fun d => listenerEntry d.1 d.2))) :=
  ⟨rfl, disable_listener_registration_scopes ⟨[], false⟩
    [("queue-2", pyHandler "listener2")]
    [("queue-3", pyHandler "listener3")] rfl⟩

/-- C7: `clear()` leaves the registry empty, and afterwards each decorator
application outside a disabled scope adds exactly one entry with the
configured queue, so `get_listeners()` returns exactly the handlers
registered since the clear. -/
theorem registry_clear_and_register (s : ListenerRegistry)
    (ds : List (String × PyFunction)) (h : s.registration_disabled = false) :
    s.clear.get_listeners = []
    ∧ (applyListeners s.clear ds).get_listeners =
        ds.map (fun d => listenerEntry d.1 d.2)
    ∧ (applyListeners s.clear ds).get_listeners.map (fun e => e.config.queue) =
        ds.map Prod.fst := by
  have hc : s.clear.registration_disabled = false := h
  have he := applyListeners_enabled ds s.clear hc
  refine ⟨rfl, ?_, ?_⟩
  · rw [he]
    simp [ListenerRegistry.get_listeners, ListenerRegistry.clear]
  · rw [he]
    simp [ListenerRegistry.get_listeners, ListenerRegistry.clear,
      List.map_map, Function.comp_def, listenerEntry]

theorem registry_clear_and_register_witness :
    ((⟨[listenerEntry "old-queue" { key := "old", params := [] }],
        false⟩ : ListenerRegistry).clear.get_listeners = [])
    ∧ ((applyListeners (⟨[listenerEntry "old-queue" { key := "old", params := [] }],
        false⟩ : ListenerRegistry).clear
        [("queue-1", pyHandler "listener1")]).get_listeners =
        ([("queue-1", pyHandler "listener1")].map
          (fun d => listenerEntry d.1 d.2)))
    ∧ ((applyListeners (⟨[listenerEntry "old-queue" { key := "old", params := [] }],
        false⟩ : ListenerRegistry).clear
        [("queue-1", pyHandler "listener1")]).get_listeners.map
          (fun e => e.config.queue) =
        ([("queue-1", pyHandler "listener1")].map
          Prod.fst)) :=
  registry_clear_and_register
    ⟨[listenerEntry "old-queue" { key := "old", params := [] }], false⟩
    [("queue-1", pyHandler "listener1")] rfl

theorem waitGo_true_iff (c : Nat → Bool) (timeout interval : Nat) :
    ∀ (fuel k elapsed : Nat), timeout ≤ elapsed + fuel * interval →
      ((waitGo c timeout interval k elapsed fuel).1 = true ↔
        ∃ j, elapsed + j * interval < timeout ∧ c (k + j) = true) := by
  intro fuel
  induction fuel with
  | zero =>
    intro k elapsed h
    simp only [waitGo]
    constructor
    · intro hh
      exact absurd hh (by simp)
    · rintro ⟨j, hj1, hj2⟩
      have hle : elapsed ≤ elapsed + j * interval := Nat.le_add_right _ _
      omega
  | succ fuel ih =>
    intro k elapsed h
    by_cases he : elapsed < timeout
    · by_cases hc : c k = true
      · simp only [waitGo, if_pos he, if_pos hc]
        constructor
        · intro _
          exact ⟨0, by simpa using he, by simpa using hc⟩
        · intro _
          trivial
      · have hc' : c k = false := by simpa using hc
        have hsm : (fuel + 1) * interval = fuel * interval + interval :=
          Nat.succ_mul fuel interval
        have hsuf : timeout ≤ elapsed + interval + fuel * interval := by omega
        simp only [waitGo, if_pos he, hc', Bool.false_eq_true, if_false]
        rw [ih (k + 1) (elapsed + interval) hsuf]
        constructor
        · rintro ⟨j, hj1, hj2⟩
          refine ⟨j + 1, ?_, ?_⟩
          · have hjm : (j + 1) * interval = j * interval + interval :=
              Nat.succ_mul j interval
            omega
          · have hk : k + 1 + j = k + (j + 1) := by omega
            rw [← hk]
            exact hj2
        · rintro ⟨j, hj1, hj2⟩
          cases j with
          | zero =>
            exfalso
            rw [Nat.add_zero] at hj2
            rw [hj2] at hc'
            exact absurd hc' (by simp)
          | succ j' =>
            refine ⟨j', ?_, ?_⟩
            · have hjm : (j' + 1) * interval = j' * interval + interval :=
                Nat.succ_mul j' interval
              omega
            · have hk : k + (j' + 1) = k + 1 + j' := by omega
              rw [hk] at hj2
              exact hj2
    · simp only [waitGo, if_neg he]
      constructor
      · intro hh
        exact absurd hh (by simp)
      · rintro ⟨j, hj1, hj2⟩
        have hle : elapsed ≤ elapsed + j * interval := Nat.le_add_right _ _
        omega

theorem waitGo_first_true (c : Nat → Bool) (timeout interval : Nat) :
    ∀ (fuel k elapsed : Nat),
      (waitGo c timeout interval k elapsed fuel).1 = true →
      1 ≤ (waitGo c timeout interval k elapsed fuel).2
      ∧ c (k + ((waitGo c timeout interval k elapsed fuel).2 - 1)) = true
      ∧ ∀ j, j < (waitGo c timeout interval k elapsed fuel).2 - 1 →
          c (k + j) = false := by
  intro fuel
  induction fuel with
  | zero =>
    intro k elapsed hh
    simp [waitGo] at hh
  | succ fuel ih =>
    intro k elapsed hh
    by_cases he : elapsed < timeout
    · by_cases hc : c k = true
      · simp only [waitGo, if_pos he, if_pos hc]
        exact ⟨le_refl 1, by simpa using hc, fun j hj => absurd hj (by omega)⟩
      · have hc' : c k = false := by simpa using hc
        have hred : waitGo c timeout interval k elapsed (fuel + 1) =
            ((waitGo c timeout interval (k + 1) (elapsed + interval) fuel).1,
             (waitGo c timeout interval (k + 1) (elapsed + interval) fuel).2 + 1) := by
          simp only [waitGo, if_pos he, hc', Bool.false_eq_true, if_false]
        rw [hred] at hh ⊢
        simp only at hh
        obtain ⟨h1, h2, h3⟩ := ih (k + 1) (elapsed + interval) hh
        refine ⟨by simp, ?_, ?_⟩
        · have hk : k + ((waitGo c timeout interval (k + 1) (elapsed + interval) fuel).2 + 1 - 1)
              = k + 1 + ((waitGo c timeout interval (k + 1) (elapsed + interval) fuel).2 - 1) := by
            omega
          simp only []
          rw [hk]
          exact h2
        · intro j hj
          simp only [] at hj
          cases j with
          | zero =>
            simpa using hc'
          | succ j' =>
            have hk : k + (j' + 1) = k + 1 + j' := by omega
            rw [hk]
            exact h3 j' (by omega)
    · simp [waitGo, he] at hh

/-- C8: `wait_for_processing` returns `True` exactly when the condition
holds at some polling step within the timeout; when it returns `True` the
call at which the condition first held was the last (no further polls), and
a condition already true is detected on the very first call; it returns
`False` when the condition never holds before the timeout elapses. -/
theorem wait_for_processing_spec (c : Nat → Bool) (timeout interval : Nat)
    (hi : 0 < interval) :
    (wait_for_processing c timeout interval = true ↔
      ∃ k, k * interval < timeout ∧ c k = true)
    ∧ (wait_for_processing c timeout interval = true →
        c (wait_for_processing_calls c timeout interval - 1) = true
        ∧ ∀ j, j < wait_for_processing_calls c timeout interval - 1 →
            c j = false)
    ∧ (0 < timeout → c 0 = true →
        wait_for_processing_calls c timeout interval = 1) := by
  have hsuf : timeout ≤ 0 + timeout * interval := by
    have h1 : timeout * 1 ≤ timeout * interval := Nat.mul_le_mul_left timeout hi
    omega
  refine ⟨?_, ?_, ?_⟩
  · have hiff := waitGo_true_iff c timeout interval timeout 0 0 hsuf
    simpa [wait_for_processing] using hiff
  · intro hh
    have ht := waitGo_first_true c timeout interval timeout 0 0
      (by simpa [wait_for_processing] using hh)
    simpa [wait_for_processing, wait_for_processing_calls] using ht.2
  · intro ht hc0
    obtain ⟨t, rfl⟩ : ∃ t, timeout = t + 1 := ⟨timeout - 1, by omega⟩
    simp [wait_for_processing_calls, waitGo, hc0]

theorem wait_for_processing_spec_witness :
    0 < 1
    ∧ ((wait_for_processing (fun k => decide (2 ≤ k)) 5 1 = true ↔
        ∃ k, k * 1 < 5 ∧ decide (2 ≤ k) = true)
      ∧ (wait_for_processing (fun k => decide (2 ≤ k)) 5 1 = true →
          decide (2 ≤ wait_for_processing_calls (fun k => decide (2 ≤ k)) 5 1 - 1) = true
          ∧ ∀ j, j < wait_for_processing_calls (fun k => decide (2 ≤ k)) 5 1 - 1 →
              decide (2 ≤ j) = false)
      ∧ (0 < 5 → decide (2 ≤ 0) = true →
          wait_for_processing_calls (fun k => decide (2 ≤ k)) 5 1 = 1)) :=
  ⟨by decide, wait_for_processing_spec (fun k => decide (2 ≤ k)) 5 1 (by decide)⟩

end Awskit
